import Mathlib

/-!
Verification of the concurrent frame pipeline in `scripts/camera_client.py`.

The Python source is shallowly embedded: each stage of the pipeline becomes a
pure Lean function over an explicit state type, float-valued clocks, scores and
brightness values are modelled as exact rationals (`ℚ`), frames as lists of
grayscale pixel values, and fallible operations (HTTP calls, the camera device,
the detection model) take their outcome as an explicit parameter.
-/

set_option autoImplicit false

namespace CameraClient

/-! ### Configuration constants (module-level constants of camera_client.py) -/

/-- Mean-luminance threshold below which a frame counts as too dark. -/
def MIN_BRIGHTNESS : ℚ := 60

/-- Minimum bounding-box width in pixels for a face to pass the quality gate. -/
def MIN_FACE_WIDTH : Int := 60

/-- Minimum detection confidence (the literal 0.60 in the source). -/
def MIN_DET_SCORE : ℚ := 60 / 100

/-- Global debounce window: the literal `1.0` in `ai_worker`
(`(current_time - last_api_call) > 1.0`). -/
def DEBOUNCE_INTERVAL : ℚ := 1

/-- Cache entry lifetime: the literal `5.0` in `verify_face_worker`
(`"expiry": time.time() + 5.0`). -/
def CACHE_TTL : ℚ := 5

/-! ### StreamUplink: `AsyncWebSocketClient`

The client owns `asyncio.Queue(maxsize=1)`. `send_frame` is called by the
producer thread; the consumer `_main_loop` dequeues and transmits after each
(re)connection. The queue contents are modelled as a list (front = oldest);
`queue_put_nowait` returns `none` when the queue is full, modelling the
`QueueFull` exception that `put_nowait` would raise. -/

structure AsyncWebSocketClient where
  queue : List Nat
  loopRunning : Bool
deriving DecidableEq, Repr

/-- `self.queue.full()` for `maxsize=1`. -/
def queue_full (q : List Nat) : Bool := decide (1 ≤ q.length)

/-- `self.queue.get_nowait()`: removes and returns the oldest item, or raises
(`none`) when empty. -/
def queue_get_nowait (q : List Nat) : Option (Nat × List Nat) :=
  match q with
  | [] => none
  | x :: rest => some (x, rest)

/-- `self.queue.put_nowait(x)`: appends, or raises QueueFull (`none`) when full
(maxsize 1). -/
def queue_put_nowait (q : List Nat) (x : Nat) : Option (List Nat) :=
  if queue_full q then none else some (q ++ [x])

/-- `AsyncWebSocketClient.send_frame`: if the loop is running, discard a pending
item when the queue is full (exceptions from `get_nowait` are swallowed), then
enqueue the new item via `call_soon_threadsafe(put_nowait, ·)`. The result is
`none` exactly when `put_nowait` would raise. -/
def send_frame (s : AsyncWebSocketClient) (frame_bytes : Nat) :
    Option AsyncWebSocketClient :=
  if s.loopRunning then
    let q1 :=
      if queue_full s.queue then
        match queue_get_nowait s.queue with
        | some (_, rest) => rest
        | none => s.queue
      else s.queue
    match queue_put_nowait q1 frame_bytes with
    | some q2 => some { s with queue := q2 }
    | none => none
  else some s

/-- A sequence of `send_frame` calls by the producer thread while the consumer
is not dequeuing (connection down). -/
def send_frames (s : AsyncWebSocketClient) (fs : List Nat) :
    Option AsyncWebSocketClient :=
  match fs with
  | [] => some s
  | f :: rest =>
    match send_frame s f with
    | some s1 => send_frames s1 rest
    | none => none

/-- After reconnection, `_main_loop` executes `await self.queue.get()` and sends
the result: the first transmitted item is the head of the queue. -/
def first_transmitted_after_reconnect (s : AsyncWebSocketClient) : Option Nat :=
  s.queue.head?

lemma send_frame_step (s : AsyncWebSocketClient) (f : Nat)
    (hrun : s.loopRunning = true) (hq : s.queue.length ≤ 1) :
    send_frame s f = some { s with queue := [f] } := by
  match hs : s.queue with
  | [] =>
    simp [send_frame, hrun, hs, queue_full, queue_put_nowait]
  | [x] =>
    simp [send_frame, hrun, hs, queue_full, queue_get_nowait, queue_put_nowait]
  | x :: y :: rest =>
    rw [hs] at hq
    simp at hq

lemma send_frames_spec (fs : List Nat) (s : AsyncWebSocketClient)
    (hrun : s.loopRunning = true) (hq : s.queue.length ≤ 1) :
    ∃ s1, send_frames s fs = some s1 ∧ s1.loopRunning = true ∧
      s1.queue = (match fs.getLast? with
                  | none => s.queue
                  | some x => [x]) := by
  induction fs generalizing s with
  | nil => exact ⟨s, rfl, hrun, rfl⟩
  | cons f rest ih =>
    have hstep := send_frame_step s f hrun hq
    have hrun1 : ({ s with queue := [f] } : AsyncWebSocketClient).loopRunning = true := hrun
    have hq1 : ({ s with queue := [f] } : AsyncWebSocketClient).queue.length ≤ 1 := by simp
    obtain ⟨s1, hfold, hrun2, hqueue⟩ := ih { s with queue := [f] } hrun1 hq1
    refine ⟨s1, ?_, hrun2, ?_⟩
    · simp [send_frames, hstep, hfold]
    · cases rest with
      | nil => simpa using hqueue
      | cons g rest2 =>
        rw [List.getLast?_cons_cons]
        simpa using hqueue

/-- C1: for every sequence of `send_frame` calls on the `AsyncWebSocketClient`
while the connection is down, `send_frame` never fails or blocks the producer
(each call returns normally, so the whole sequence succeeds), the internal
queue never holds more than 1 pending item, and after reconnection the first
item transmitted is exactly the most recent item enqueued (an older pending
item having been discarded before the new one was enqueued). -/
theorem send_frame_latest_wins (s : AsyncWebSocketClient) (fs : List Nat)
    (hrun : s.loopRunning = true) (hq : s.queue.length ≤ 1) :
    ∃ s1, send_frames s fs = some s1 ∧ s1.queue.length ≤ 1 ∧
      (fs ≠ [] → first_transmitted_after_reconnect s1 = fs.getLast?) := by
  obtain ⟨s1, hfold, hrun1, hqueue⟩ := send_frames_spec fs s hrun hq
  refine ⟨s1, hfold, ?_, ?_⟩
  · cases hlast : fs.getLast? with
    | none => rw [hqueue, hlast]; exact hq
    | some x => rw [hqueue, hlast]; simp
  · intro hne
    cases hlast : fs.getLast? with
    | none => exact absurd (List.getLast?_eq_none_iff.mp hlast) hne
    | some x =>
      rw [first_transmitted_after_reconnect, hqueue, hlast]
      simp

/-- Witness for C1 at a concrete client and frame sequence. -/
theorem send_frame_latest_wins_witness :
    (⟨[7], true⟩ : AsyncWebSocketClient).loopRunning = true ∧
    (⟨[7], true⟩ : AsyncWebSocketClient).queue.length ≤ 1 ∧
    ∃ s1, send_frames ⟨[7], true⟩ [1, 2, 3] = some s1 ∧ s1.queue.length ≤ 1 ∧
      ([1, 2, 3] ≠ [] → first_transmitted_after_reconnect s1 = [1, 2, 3].getLast?) :=
  ⟨rfl, by decide, send_frame_latest_wins ⟨[7], true⟩ [1, 2, 3] rfl (by decide)⟩

/-! ### Data model for detection and verification

`app.get` produces faces with an integer bounding box (after `astype(int)`),
a detection score, and an embedding. `recognition_results` is the spatial
result cache: a dict from the string face key to an entry
`{name, color, expiry}`; it is modelled as an association list. -/

structure BBox where
  x0 : Int
  y0 : Int
  x1 : Int
  y1 : Int
deriving DecidableEq, Repr

structure Face where
  bbox : BBox
  det_score : ℚ
  embedding : List ℚ
deriving DecidableEq, Repr

/-- `bbox[2] - bbox[0]` in `ai_worker`. -/
def bboxWidth (b : BBox) : Int := b.x1 - b.x0

/-- `(bbox[0] + bbox[2]) // 2` (Python floor division). -/
def centerX (b : BBox) : Int := (b.x0 + b.x1).fdiv 2

/-- `(bbox[1] + bbox[3]) // 2` (Python floor division). -/
def centerY (b : BBox) : Int := (b.y0 + b.y1).fdiv 2

/-- The spatial key `f"{center_x // 50}_{center_y // 50}"`. -/
def face_key (b : BBox) : String :=
  toString ((centerX b).fdiv 50) ++ "_" ++ toString ((centerY b).fdiv 50)

structure CacheEntry where
  name : String
  color : Nat × Nat × Nat
  expiry : ℚ
deriving DecidableEq, Repr

abbrev RecognitionResults := List (String × CacheEntry)

/-- Dictionary lookup `recognition_results[k]` / `k in recognition_results`. -/
def cacheGet (c : RecognitionResults) (k : String) : Option CacheEntry :=
  match c with
  | [] => none
  | (k1, e) :: rest => if k1 = k then some e else cacheGet rest k

/-- Dictionary assignment `recognition_results[k] = e`. -/
def cachePut (c : RecognitionResults) (k : String) (e : CacheEntry) :
    RecognitionResults :=
  match c with
  | [] => [(k, e)]
  | (k1, e1) :: rest =>
    if k1 = k then (k, e) :: rest else (k1, e1) :: cachePut rest k e

/-- The JSON body and status code of the identify endpoint's response; the
verification call's outcome is `none` when `requests.post` raises (network
error or timeout). -/
structure HttpResponse where
  status_code : Nat
  person_name : Option String
  status : Option String
deriving DecidableEq, Repr

/-- `verify_face_worker`: on a response with status code 200, write a cache
entry under `face_key` whose name is `data.get("person_name", "Unknown")`,
whose color is green for status "success"/"ignored" and red otherwise, and
whose expiry is `time.time() + 5.0`; on an exception (`none`) the `except`
clause swallows it and nothing is written; on any other status code nothing
is written either. -/
def verify_face_worker (c : RecognitionResults) (k : String) (now : ℚ)
    (response : Option HttpResponse) : RecognitionResults :=
  match response with
  | none => c
  | some r =>
    if r.status_code = 200 then
      let name := r.person_name.getD "Unknown"
      let color :=
        if r.status = some "success" ∨ r.status = some "ignored" then
          ((0, 255, 0) : Nat × Nat × Nat)
        else (0, 0, 255)
      cachePut c k { name := name, color := color, expiry := now + CACHE_TTL }
    else c

/-- The per-key dispatch gate in `ai_worker`:
`face_key not in recognition_results or current_time > ...["expiry"]`. -/
def dispatchEligible (c : RecognitionResults) (k : String) (current_time : ℚ) :
    Bool :=
  match cacheGet c k with
  | none => true
  | some e => decide (current_time > e.expiry)

/-! ### InferenceWorker: `ai_worker`

One iteration of the `while running` loop. The frame copy is modelled by its
grayscale pixel values (the `cv2.cvtColor` conversion is external); the
detection call `app.get` either returns a face list or raises. Dispatches are
the `threading.Thread(target=verify_face_worker, args=(embedding, key))`
launches. `last_api_call` is the global debounce clock. -/

/-- `get_brightness`: `np.mean` of the grayscale frame. -/
def get_brightness (frame : List ℚ) : ℚ := frame.sum / frame.length

structure DispatchRecord where
  embedding : List ℚ
  key : String
deriving DecidableEq, Repr

/-- Accumulator of the `for face in faces` loop in `ai_worker`. -/
structure PassAcc where
  valid_faces : List Face
  last_api_call : ℚ
  dispatches : List DispatchRecord
deriving DecidableEq, Repr

/-- One iteration of the `for face in faces` loop: quality gates, append to
`valid_faces`, then the per-key cache gate and the global debounce gate; on
passing both, stamp `last_api_call` and launch a verification dispatch. -/
def processFace (c : RecognitionResults) (current_time : ℚ) (acc : PassAcc)
    (face : Face) : PassAcc :=
  let width := bboxWidth face.bbox
  if face.det_score < MIN_DET_SCORE then acc
  else if width < MIN_FACE_WIDTH then acc
  else
    let acc1 := { acc with valid_faces := acc.valid_faces ++ [face] }
    let k := face_key face.bbox
    if dispatchEligible c k current_time then
      if current_time - acc1.last_api_call > DEBOUNCE_INTERVAL then
        { acc1 with
            last_api_call := current_time,
            dispatches := acc1.dispatches ++ [⟨face.embedding, k⟩] }
      else acc1
    else acc1

/-- Mutable state of `ai_worker` across passes: the published detection
snapshot `detected_faces` and the debounce clock `last_api_call`. -/
structure WorkerState where
  detected_faces : List Face
  last_api_call : ℚ
deriving DecidableEq, Repr

/-- Outcome of the external `app.get` call in a pass. -/
inductive DetectionResult where
  | ok (faces : List Face)
  | raises
deriving DecidableEq, Repr

/-- External inputs of one pass: the snapshot of `latest_frame`, the detection
outcome, and `time.time()` as sampled at line `current_time = time.time()`. -/
structure PassInput where
  latest_frame : Option (List ℚ)
  detection : DetectionResult
  current_time : ℚ
deriving DecidableEq, Repr

structure PassResult where
  state : WorkerState
  dispatches : List DispatchRecord
  raised : Bool
deriving DecidableEq, Repr

/-- One full iteration of the `while running` loop in `ai_worker`: skip when no
frame yet; publish an empty snapshot and skip when too dark; otherwise run
detection (whose exception, having no handler, propagates: `raised = true`),
filter and dispatch, and publish `valid_faces` as the new snapshot. -/
def ai_worker_pass (c : RecognitionResults) (st : WorkerState)
    (inp : PassInput) : PassResult :=
  match inp.latest_frame with
  | none => { state := st, dispatches := [], raised := false }
  | some frame =>
    if get_brightness frame < MIN_BRIGHTNESS then
      { state := { st with detected_faces := [] }, dispatches := [],
        raised := false }
    else
      match inp.detection with
      | .raises => { state := st, dispatches := [], raised := true }
      | .ok faces =>
        let acc := faces.foldl (processFace c inp.current_time)
          { valid_faces := [], last_api_call := st.last_api_call,
            dispatches := [] }
        { state := { detected_faces := acc.valid_faces,
                     last_api_call := acc.last_api_call },
          dispatches := acc.dispatches, raised := false }

/-- The `while running` loop of `ai_worker` over a finite input trace. An
unhandled exception from a pass terminates the thread: no later pass runs.
Returns the final worker state, the per-pass dispatch lists, and whether the
worker died to an exception. -/
def ai_worker_run (c : RecognitionResults) (st : WorkerState) :
    List PassInput → WorkerState × List (List DispatchRecord) × Bool
  | [] => (st, [], false)
  | inp :: rest =>
    let r := ai_worker_pass c st inp
    if r.raised then (r.state, [r.dispatches], true)
    else
      let tail := ai_worker_run c r.state rest
      (tail.1, r.dispatches :: tail.2.1, tail.2.2)

/-! ### RenderLoop cache lookup (`start_camera`, overlay styling) -/

/-- The label/color resolution in `start_camera`: defaults
`("Scanning...", yellow)`; a cache entry is used only while
`time.time() < res["expiry"]`. -/
def render_lookup (c : RecognitionResults) (k : String) (now : ℚ) :
    String × (Nat × Nat × Nat) :=
  match cacheGet c k with
  | some res =>
    if now < res.expiry then (res.name, res.color) else ("Scanning...", (0, 255, 255))
  | none => ("Scanning...", (0, 255, 255))

/-! ### FrameSource: `ThreadedCamera`

The device is external: each `capture.read()` outcome is a parameter
(`some frame` on success, `none` on failure, matching cv2's `(False, None)`).
`stop()` sets `stopped` and releases the capture, after which
`capture.isOpened()` is false (modelled by `released`). -/

structure ThreadedCamera where
  ret : Bool
  frame : Option (List ℚ)
  stopped : Bool
  released : Bool
deriving DecidableEq, Repr

/-- `__init__`: `self.ret, self.frame = self.capture.read()`. -/
def ThreadedCamera.init (device_read : Option (List ℚ)) : ThreadedCamera :=
  { ret := device_read.isSome, frame := device_read, stopped := false,
    released := false }

/-- `stop()`: sets the stop flag and releases the device. -/
def ThreadedCamera.stop (s : ThreadedCamera) : ThreadedCamera :=
  { s with stopped := true, released := true }

/-- One iteration of the `update` loop: exit when stopped; stop when the
capture is no longer opened; on a successful device read store `ret`/`frame`;
on a failed read call `stop()` — note `self.ret` is NOT updated on failure. -/
def ThreadedCamera.updateStep (s : ThreadedCamera)
    (device_read : Option (List ℚ)) : ThreadedCamera :=
  if s.stopped then s
  else if s.released then s.stop
  else
    match device_read with
    | some f => { s with ret := true, frame := some f }
    | none => s.stop

/-- `read()`: returns `(self.ret, copy of self.frame)` (the copy is identity
here); the `None` check only guards the copy. -/
def ThreadedCamera.read (s : ThreadedCamera) : Bool × Option (List ℚ) :=
  match s.frame with
  | some f => (s.ret, some f)
  | none => (s.ret, none)

/-! ### Lemmas about the dispatch fold -/

lemma dispatchEligible_some (c : RecognitionResults) (k : String) (t : ℚ)
    (e : CacheEntry) (hget : cacheGet c k = some e) :
    dispatchEligible c k t = decide (t > e.expiry) := by
  unfold dispatchEligible
  rw [hget]

lemma cacheGet_cachePut_self (c : RecognitionResults) (k : String)
    (e : CacheEntry) : cacheGet (cachePut c k e) k = some e := by
  induction c with
  | nil => simp [cachePut, cacheGet]
  | cons p rest ih =>
    obtain ⟨k1, e1⟩ := p
    by_cases h : k1 = k
    · simp [cachePut, h, cacheGet]
    · simp [cachePut, h, cacheGet, ih]

lemma processFace_spec (c : RecognitionResults) (t : ℚ) (acc : PassAcc)
    (f : Face) :
    ((processFace c t acc f).dispatches = acc.dispatches ∧
     (processFace c t acc f).last_api_call = acc.last_api_call) ∨
    ((processFace c t acc f).dispatches =
        acc.dispatches ++ [⟨f.embedding, face_key f.bbox⟩] ∧
     (processFace c t acc f).last_api_call = t ∧
     dispatchEligible c (face_key f.bbox) t = true ∧
     t - acc.last_api_call > DEBOUNCE_INTERVAL) := by
  unfold processFace
  by_cases h1 : f.det_score < MIN_DET_SCORE
  · left; simp [h1]
  · by_cases h2 : bboxWidth f.bbox < MIN_FACE_WIDTH
    · left; simp [h1, h2]
    · by_cases h3 : dispatchEligible c (face_key f.bbox) t
      · by_cases h4 : t - acc.last_api_call > DEBOUNCE_INTERVAL
        · right; simp [h1, h2, h3, h4]
        · left; simp [h1, h2, h3, h4]
      · left; simp [h1, h2, h3]

lemma processFace_valid_faces (c : RecognitionResults) (t : ℚ) (acc : PassAcc)
    (f : Face) :
    (processFace c t acc f).valid_faces = acc.valid_faces ∨
    ((processFace c t acc f).valid_faces = acc.valid_faces ++ [f] ∧
     MIN_DET_SCORE ≤ f.det_score ∧ MIN_FACE_WIDTH ≤ bboxWidth f.bbox) := by
  unfold processFace
  by_cases h1 : f.det_score < MIN_DET_SCORE
  · left; simp [h1]
  · by_cases h2 : bboxWidth f.bbox < MIN_FACE_WIDTH
    · left; simp [h1, h2]
    · right
      refine ⟨?_, not_lt.mp h1, not_lt.mp h2⟩
      by_cases h3 : dispatchEligible c (face_key f.bbox) t
      · by_cases h4 : t - acc.last_api_call > DEBOUNCE_INTERVAL
        · simp [h1, h2, h3, h4]
        · simp [h1, h2, h3, h4]
      · simp [h1, h2, h3]

lemma foldl_no_dispatch_after_stamp (c : RecognitionResults) (t : ℚ) :
    ∀ (fs : List Face) (acc : PassAcc), acc.last_api_call = t →
      (fs.foldl (processFace c t) acc).dispatches = acc.dispatches ∧
      (fs.foldl (processFace c t) acc).last_api_call = t := by
  intro fs
  induction fs with
  | nil => intro acc h; exact ⟨rfl, h⟩
  | cons f rest ih =>
    intro acc h
    rcases processFace_spec c t acc f with ⟨hd, hl⟩ | ⟨hd, hl, _, hdeb⟩
    · have hrec := ih (processFace c t acc f) (hl.trans h)
      rw [List.foldl_cons]
      exact ⟨hrec.1.trans hd, hrec.2⟩
    · rw [h, sub_self] at hdeb
      norm_num [DEBOUNCE_INTERVAL] at hdeb

lemma foldl_dispatch_requires_debounce (c : RecognitionResults) (t : ℚ) :
    ∀ (fs : List Face) (acc : PassAcc),
      (fs.foldl (processFace c t) acc).dispatches ≠ acc.dispatches →
      t - acc.last_api_call > DEBOUNCE_INTERVAL := by
  intro fs
  induction fs with
  | nil => intro acc h; exact absurd rfl h
  | cons f rest ih =>
    intro acc h
    rw [List.foldl_cons] at h
    rcases processFace_spec c t acc f with ⟨hd, hl⟩ | ⟨hd, hl, _, hdeb⟩
    · have hne : (rest.foldl (processFace c t) (processFace c t acc f)).dispatches
          ≠ (processFace c t acc f).dispatches := by
        intro heq
        exact h (heq.trans hd)
      have := ih (processFace c t acc f) hne
      rwa [hl] at this
    · exact hdeb

lemma foldl_dispatch_eligible (c : RecognitionResults) (t : ℚ) :
    ∀ (fs : List Face) (acc : PassAcc) (d : DispatchRecord),
      d ∈ (fs.foldl (processFace c t) acc).dispatches →
      d ∈ acc.dispatches ∨ dispatchEligible c d.key t = true := by
  intro fs
  induction fs with
  | nil => intro acc d h; exact Or.inl h
  | cons f rest ih =>
    intro acc d h
    rw [List.foldl_cons] at h
    rcases ih (processFace c t acc f) d h with hmem | helig
    · rcases processFace_spec c t acc f with ⟨hd, _⟩ | ⟨hd, _, helig, _⟩
      · rw [hd] at hmem
        exact Or.inl hmem
      · rw [hd, List.mem_append] at hmem
        rcases hmem with hmem | hmem
        · exact Or.inl hmem
        · right
          rw [List.mem_singleton] at hmem
          rw [hmem]
          exact helig
    · exact Or.inr helig

lemma pass_dispatch_eligible (c : RecognitionResults) (st : WorkerState)
    (inp : PassInput) :
    ∀ d ∈ (ai_worker_pass c st inp).dispatches,
      dispatchEligible c d.key inp.current_time = true := by
  intro d hd
  unfold ai_worker_pass at hd
  cases hf : inp.latest_frame with
  | none => rw [hf] at hd; simp at hd
  | some frame =>
    rw [hf] at hd
    by_cases hb : get_brightness frame < MIN_BRIGHTNESS
    · simp [hb] at hd
    · cases hdet : inp.detection with
      | raises => rw [hdet] at hd; simp [hb] at hd
      | ok faces =>
        rw [hdet] at hd
        simp only [hb, if_false] at hd
        rcases foldl_dispatch_eligible c inp.current_time faces _ d hd with h | h
        · simp at h
        · exact h

lemma pass_dispatch_requires_debounce (c : RecognitionResults)
    (st : WorkerState) (inp : PassInput)
    (h : (ai_worker_pass c st inp).dispatches ≠ []) :
    inp.current_time - st.last_api_call > DEBOUNCE_INTERVAL := by
  unfold ai_worker_pass at h
  cases hf : inp.latest_frame with
  | none => rw [hf] at h; simp at h
  | some frame =>
    rw [hf] at h
    by_cases hb : get_brightness frame < MIN_BRIGHTNESS
    · simp [hb] at h
    · cases hdet : inp.detection with
      | raises => rw [hdet] at h; simp [hb] at h
      | ok faces =>
        rw [hdet] at h
        simp only [hb, if_false] at h
        exact foldl_dispatch_requires_debounce c inp.current_time faces _ h

lemma no_dispatch_for_cached_key (c : RecognitionResults) (k : String)
    (e : CacheEntry) (hget : cacheGet c k = some e) (st : WorkerState)
    (inp : PassInput) (hwin : inp.current_time ≤ e.expiry) :
    ∀ d ∈ (ai_worker_pass c st inp).dispatches, d.key ≠ k := by
  intro d hd hkey
  have helig := pass_dispatch_eligible c st inp d hd
  rw [hkey, dispatchEligible_some c k inp.current_time e hget] at helig
  exact absurd (of_decide_eq_true helig) (not_lt.mpr hwin)

lemma foldl_valid_faces_gated (c : RecognitionResults) (t : ℚ) :
    ∀ (fs : List Face) (acc : PassAcc),
      (∀ f ∈ acc.valid_faces, MIN_DET_SCORE ≤ f.det_score ∧
        MIN_FACE_WIDTH ≤ bboxWidth f.bbox) →
      ∀ f ∈ (fs.foldl (processFace c t) acc).valid_faces,
        MIN_DET_SCORE ≤ f.det_score ∧ MIN_FACE_WIDTH ≤ bboxWidth f.bbox := by
  intro fs
  induction fs with
  | nil => intro acc hacc; exact hacc
  | cons f rest ih =>
    intro acc hacc
    rw [List.foldl_cons]
    apply ih
    rcases processFace_valid_faces c t acc f with hv | ⟨hv, hs, hw⟩
    · rw [hv]; exact hacc
    · rw [hv]
      intro g hg
      rcases List.mem_append.mp hg with h | h
      · exact hacc g h
      · rw [List.mem_singleton.mp h]
        exact ⟨hs, hw⟩

/-- C4: every detection pass that completes publishes a snapshot containing
only observations with `det_score ≥ MIN_DET_SCORE` and bounding-box width
`≥ MIN_FACE_WIDTH`; any observation failing either threshold is excluded. -/
theorem snapshot_quality_gates (c : RecognitionResults) (st : WorkerState)
    (inp : PassInput) (frame : List ℚ) (faces : List Face)
    (hframe : inp.latest_frame = some frame)
    (hbright : ¬ get_brightness frame < MIN_BRIGHTNESS)
    (hdet : inp.detection = DetectionResult.ok faces) :
    (∀ f ∈ (ai_worker_pass c st inp).state.detected_faces,
       MIN_DET_SCORE ≤ f.det_score ∧ MIN_FACE_WIDTH ≤ bboxWidth f.bbox) ∧
    (∀ f, (f.det_score < MIN_DET_SCORE ∨ bboxWidth f.bbox < MIN_FACE_WIDTH) →
       f ∉ (ai_worker_pass c st inp).state.detected_faces) := by
  have hmain : ∀ f ∈ (ai_worker_pass c st inp).state.detected_faces,
      MIN_DET_SCORE ≤ f.det_score ∧ MIN_FACE_WIDTH ≤ bboxWidth f.bbox := by
    intro f hf
    unfold ai_worker_pass at hf
    rw [hframe, hdet] at hf
    simp only [hbright, if_false] at hf
    exact foldl_valid_faces_gated c inp.current_time faces _ (by simp) f hf
  refine ⟨hmain, ?_⟩
  intro f hbad hf
  rcases hbad with h | h
  · exact absurd (hmain f hf).1 (not_le.mpr h)
  · exact absurd (hmain f hf).2 (not_le.mpr h)

/-- Witness for C4: a bright pass with one passing and one too-small face. -/
theorem snapshot_quality_gates_witness :
    ¬ get_brightness [100] < MIN_BRIGHTNESS ∧
    ((∀ f ∈ (ai_worker_pass [] ⟨[], 0⟩
        ⟨some [100], DetectionResult.ok
          [⟨⟨0, 0, 100, 100⟩, 1, []⟩, ⟨⟨0, 0, 10, 10⟩, 1, []⟩], 0⟩).state.detected_faces,
       MIN_DET_SCORE ≤ f.det_score ∧ MIN_FACE_WIDTH ≤ bboxWidth f.bbox) ∧
     (∀ f, (f.det_score < MIN_DET_SCORE ∨ bboxWidth f.bbox < MIN_FACE_WIDTH) →
       f ∉ (ai_worker_pass [] ⟨[], 0⟩
        ⟨some [100], DetectionResult.ok
          [⟨⟨0, 0, 100, 100⟩, 1, []⟩, ⟨⟨0, 0, 10, 10⟩, 1, []⟩], 0⟩).state.detected_faces)) :=
  ⟨by norm_num [get_brightness, MIN_BRIGHTNESS],
   snapshot_quality_gates [] ⟨[], 0⟩ _ [100] _ rfl
     (by norm_num [get_brightness, MIN_BRIGHTNESS]) rfl⟩

/-- C5: a pass whose frame has mean grayscale luminance below
`MIN_BRIGHTNESS` publishes an empty detection snapshot and launches no
remote-verification dispatches (and leaves the debounce clock untouched). -/
theorem dark_pass_publishes_empty (c : RecognitionResults) (st : WorkerState)
    (inp : PassInput) (frame : List ℚ)
    (hframe : inp.latest_frame = some frame)
    (hdark : get_brightness frame < MIN_BRIGHTNESS) :
    ai_worker_pass c st inp =
      { state := { detected_faces := [], last_api_call := st.last_api_call },
        dispatches := [], raised := false } := by
  unfold ai_worker_pass
  rw [hframe]
  simp [hdark]

/-- Witness for C5 at a frame of mean luminance 10. -/
theorem dark_pass_publishes_empty_witness :
    get_brightness [10] < MIN_BRIGHTNESS ∧
    ai_worker_pass [] ⟨[⟨⟨0, 0, 100, 100⟩, 1, []⟩], 3⟩
        ⟨some [10], DetectionResult.ok [⟨⟨0, 0, 100, 100⟩, 1, []⟩], 7⟩ =
      { state := { detected_faces := [], last_api_call := 3 },
        dispatches := [], raised := false } :=
  ⟨by norm_num [get_brightness, MIN_BRIGHTNESS],
   dark_pass_publishes_empty [] ⟨[⟨⟨0, 0, 100, 100⟩, 1, []⟩], 3⟩ _ [10] rfl
     (by norm_num [get_brightness, MIN_BRIGHTNESS])⟩

/-- C6: a verification call that fails — `requests.post` raising (network
error or timeout), or a non-2xx HTTP status — writes nothing to the cache:
`recognition_results` is exactly as before the call. -/
theorem failed_verification_writes_nothing (c : RecognitionResults)
    (k : String) (now : ℚ) (r : HttpResponse)
    (hfail : r.status_code < 200 ∨ 300 ≤ r.status_code) :
    verify_face_worker c k now none = c ∧
    verify_face_worker c k now (some r) = c := by
  refine ⟨rfl, ?_⟩
  have hne : ¬ r.status_code = 200 := by omega
  simp [verify_face_worker, hne]

/-- Witness for C6 at a 500 response and at an exception. -/
theorem failed_verification_writes_nothing_witness :
    ((500 : Nat) < 200 ∨ (300 : Nat) ≤ 500) ∧
    (verify_face_worker [("1_1", ⟨"Jane", (0, 255, 0), 5⟩)] "1_1" 0 none =
       [("1_1", ⟨"Jane", (0, 255, 0), 5⟩)] ∧
     verify_face_worker [("1_1", ⟨"Jane", (0, 255, 0), 5⟩)] "1_1" 0
        (some ⟨500, some "Jane", some "success"⟩) =
       [("1_1", ⟨"Jane", (0, 255, 0), 5⟩)]) :=
  ⟨by decide,
   failed_verification_writes_nothing [("1_1", ⟨"Jane", (0, 255, 0), 5⟩)]
     "1_1" 0 ⟨500, some "Jane", some "success"⟩ (by decide)⟩

/-- C9: a cache entry whose expiry has passed is treated exactly as absent by
both readers: the render loop falls back to the default pending styling
("Scanning..." in yellow) and the dispatcher's per-key gate reports the key
eligible for dispatch. -/
theorem expired_entry_treated_absent (c : RecognitionResults) (k : String)
    (e : CacheEntry) (t : ℚ) (hget : cacheGet c k = some e)
    (hexp : e.expiry < t) :
    render_lookup c k t = ("Scanning...", (0, 255, 255)) ∧
    dispatchEligible c k t = true := by
  constructor
  · unfold render_lookup
    rw [hget]
    simp [not_lt.mpr (le_of_lt hexp)]
  · rw [dispatchEligible_some c k t e hget]
    exact decide_eq_true hexp

/-- Witness for C9: an entry that expired at 5, read at 6. -/
theorem expired_entry_treated_absent_witness :
    (⟨"Jane", (0, 255, 0), 5⟩ : CacheEntry).expiry < (6 : ℚ) ∧
    render_lookup [("1_1", ⟨"Jane", (0, 255, 0), 5⟩)] "1_1" 6 =
      ("Scanning...", (0, 255, 255)) ∧
    dispatchEligible [("1_1", ⟨"Jane", (0, 255, 0), 5⟩)] "1_1" 6 = true :=
  ⟨by decide,
   expired_entry_treated_absent [("1_1", ⟨"Jane", (0, 255, 0), 5⟩)] "1_1"
     ⟨"Jane", (0, 255, 0), 5⟩ 6 (by simp [cacheGet]) (by decide)⟩

/-- C2: with `DEBOUNCE_INTERVAL = 1.0`, a pass in which three or more distinct
new faces pass the quality gates while the debounce window is open launches
exactly one dispatch (for the first such face, which stamps the debounce
clock with the pass's `current_time`); any pass whose state carries the
stamped clock dispatches only once at least `DEBOUNCE_INTERVAL` has elapsed
since the stamp. -/
theorem debounce_single_dispatch_per_pass (c : RecognitionResults)
    (st : WorkerState) (inp : PassInput) (frame : List ℚ) (f1 : Face)
    (rest : List Face)
    (hframe : inp.latest_frame = some frame)
    (hbright : ¬ get_brightness frame < MIN_BRIGHTNESS)
    (hdet : inp.detection = DetectionResult.ok (f1 :: rest))
    (hthree : 2 ≤ rest.length)
    (hgates : ∀ f ∈ f1 :: rest, MIN_DET_SCORE ≤ f.det_score ∧
      MIN_FACE_WIDTH ≤ bboxWidth f.bbox)
    (hfresh : ∀ f ∈ f1 :: rest,
      dispatchEligible c (face_key f.bbox) inp.current_time = true)
    (hdistinct : (f1 :: rest).Pairwise
      (fun a b => face_key a.bbox ≠ face_key b.bbox))
    (hdeb : inp.current_time - st.last_api_call > DEBOUNCE_INTERVAL) :
    (ai_worker_pass c st inp).dispatches =
      [⟨f1.embedding, face_key f1.bbox⟩] ∧
    (ai_worker_pass c st inp).state.last_api_call = inp.current_time ∧
    (∀ (c2 : RecognitionResults) (st2 : WorkerState) (inp2 : PassInput),
       st2.last_api_call = inp.current_time →
       (ai_worker_pass c2 st2 inp2).dispatches ≠ [] →
       DEBOUNCE_INTERVAL ≤ inp2.current_time - inp.current_time) := by
  have hg1 := hgates f1 (List.mem_cons_self f1 rest)
  have h1 : ¬ f1.det_score < MIN_DET_SCORE := not_lt.mpr hg1.1
  have h2 : ¬ bboxWidth f1.bbox < MIN_FACE_WIDTH := not_lt.mpr hg1.2
  have he1 := hfresh f1 (List.mem_cons_self f1 rest)
  have hstep : processFace c inp.current_time
      ⟨[], st.last_api_call, []⟩ f1 =
      ⟨[f1], inp.current_time, [⟨f1.embedding, face_key f1.bbox⟩]⟩ := by
    simp [processFace, h1, h2, he1, hdeb]
  have hfold := foldl_no_dispatch_after_stamp c inp.current_time rest
    ⟨[f1], inp.current_time, [⟨f1.embedding, face_key f1.bbox⟩]⟩ rfl
  have hpass : (ai_worker_pass c st inp).dispatches =
        [⟨f1.embedding, face_key f1.bbox⟩] ∧
      (ai_worker_pass c st inp).state.last_api_call = inp.current_time := by
    unfold ai_worker_pass
    rw [hframe, hdet]
    simp only [hbright, if_false, List.foldl_cons, hstep]
    exact ⟨hfold.1, hfold.2⟩
  refine ⟨hpass.1, hpass.2, ?_⟩
  intro c2 st2 inp2 hstamp hne
  have := pass_dispatch_requires_debounce c2 st2 inp2 hne
  rw [hstamp] at this
  exact le_of_lt this

/-- Witness for C2: three fresh faces with distinct keys in one bright pass
at time 2 with the debounce clock at 0. -/
theorem debounce_single_dispatch_per_pass_witness :
    (2 : ℚ) - 0 > DEBOUNCE_INTERVAL ∧
    (ai_worker_pass [] ⟨[], 0⟩
      ⟨some [100], DetectionResult.ok
        [⟨⟨0, 0, 100, 100⟩, 1, []⟩, ⟨⟨200, 0, 300, 100⟩, 1, []⟩,
         ⟨⟨400, 0, 500, 100⟩, 1, []⟩], 2⟩).dispatches =
      [⟨[], face_key ⟨0, 0, 100, 100⟩⟩] ∧
    (ai_worker_pass [] ⟨[], 0⟩
      ⟨some [100], DetectionResult.ok
        [⟨⟨0, 0, 100, 100⟩, 1, []⟩, ⟨⟨200, 0, 300, 100⟩, 1, []⟩,
         ⟨⟨400, 0, 500, 100⟩, 1, []⟩], 2⟩).state.last_api_call = 2 ∧
    (∀ (c2 : RecognitionResults) (st2 : WorkerState) (inp2 : PassInput),
       st2.last_api_call = 2 →
       (ai_worker_pass c2 st2 inp2).dispatches ≠ [] →
       DEBOUNCE_INTERVAL ≤ inp2.current_time - 2) :=
  ⟨by norm_num [DEBOUNCE_INTERVAL],
   debounce_single_dispatch_per_pass [] ⟨[], 0⟩ _ [100]
     ⟨⟨0, 0, 100, 100⟩, 1, []⟩
     [⟨⟨200, 0, 300, 100⟩, 1, []⟩, ⟨⟨400, 0, 500, 100⟩, 1, []⟩]
     rfl (by norm_num [get_brightness, MIN_BRIGHTNESS]) rfl (by decide)
     (by
       intro f hf
       simp only [List.mem_cons, List.not_mem_nil, or_false] at hf
       rcases hf with rfl | rfl | rfl <;>
         exact ⟨by norm_num [MIN_DET_SCORE], by norm_num [MIN_FACE_WIDTH, bboxWidth]⟩)
     (by intro f _; rfl)
     (by decide)
     (by norm_num [DEBOUNCE_INTERVAL])⟩

lemma verify_success_entry (c : RecognitionResults) (k : String) (t0 : ℚ)
    (r : HttpResponse) (h200 : r.status_code = 200) :
    ∃ e, cacheGet (verify_face_worker c k t0 (some r)) k = some e ∧
      e.expiry = t0 + CACHE_TTL := by
  simp only [verify_face_worker]
  rw [if_pos h200]
  exact ⟨_, cacheGet_cachePut_self c k _, rfl⟩

/-- C3: a successful dispatch for a key writes a cache entry expiring at
`now + CACHE_TTL`; while that entry is unexpired no pass dispatches the key
again, no matter how many passes observe faces there; and in general a
dispatch is launched only for a key the per-key gate reports absent or
expired. -/
theorem cache_ttl_suppresses_redispatch (c : RecognitionResults) (k : String)
    (t0 : ℚ) (r : HttpResponse) (h200 : r.status_code = 200) :
    (∃ e, cacheGet (verify_face_worker c k t0 (some r)) k = some e ∧
       e.expiry = t0 + CACHE_TTL) ∧
    (∀ (st : WorkerState) (inp : PassInput),
       inp.current_time ≤ t0 + CACHE_TTL →
       ∀ d ∈ (ai_worker_pass (verify_face_worker c k t0 (some r)) st
         inp).dispatches, d.key ≠ k) ∧
    (∀ (c2 : RecognitionResults) (st : WorkerState) (inp : PassInput),
       ∀ d ∈ (ai_worker_pass c2 st inp).dispatches,
         dispatchEligible c2 d.key inp.current_time = true) := by
  obtain ⟨e, hget, hexp⟩ := verify_success_entry c k t0 r h200
  refine ⟨⟨e, hget, hexp⟩, ?_, ?_⟩
  · intro st inp hwin
    exact no_dispatch_for_cached_key _ k e hget st inp (hexp ▸ hwin)
  · intro c2 st inp
    exact pass_dispatch_eligible c2 st inp

/-- Witness for C3: a success response cached at time 0 suppresses the key
for the whole TTL window. -/
theorem cache_ttl_suppresses_redispatch_witness :
    (200 : Nat) = 200 ∧
    ((∃ e, cacheGet (verify_face_worker [] "1_1" 0
         (some ⟨200, some "Jane", some "success"⟩)) "1_1" = some e ∧
       e.expiry = 0 + CACHE_TTL) ∧
     (∀ (st : WorkerState) (inp : PassInput),
        inp.current_time ≤ 0 + CACHE_TTL →
        ∀ d ∈ (ai_worker_pass (verify_face_worker [] "1_1" 0
          (some ⟨200, some "Jane", some "success"⟩)) st inp).dispatches,
          d.key ≠ "1_1") ∧
     (∀ (c2 : RecognitionResults) (st : WorkerState) (inp : PassInput),
        ∀ d ∈ (ai_worker_pass c2 st inp).dispatches,
          dispatchEligible c2 d.key inp.current_time = true)) :=
  ⟨rfl, cache_ttl_suppresses_redispatch [] "1_1" 0
    ⟨200, some "Jane", some "success"⟩ rfl⟩

/-- C10: a 200 response whose status field is neither "success" nor "ignored"
still writes a cache entry: red color class `(0,0,255)`, the returned or
default "Unknown" label, expiry `now + CACHE_TTL`; that entry suppresses any
re-dispatch of the key for the full TTL; only "success" and "ignored" yield
the green color class `(0,255,0)`. -/
theorem status_200_unknown_writes_red_entry (c : RecognitionResults)
    (k : String) (now : ℚ) (r : HttpResponse)
    (h200 : r.status_code = 200) :
    (r.status ≠ some "success" → r.status ≠ some "ignored" →
       cacheGet (verify_face_worker c k now (some r)) k =
         some ⟨r.person_name.getD "Unknown", (0, 0, 255), now + CACHE_TTL⟩) ∧
    ((r.status = some "success" ∨ r.status = some "ignored") →
       cacheGet (verify_face_worker c k now (some r)) k =
         some ⟨r.person_name.getD "Unknown", (0, 255, 0), now + CACHE_TTL⟩) ∧
    (∀ (st : WorkerState) (inp : PassInput),
       inp.current_time ≤ now + CACHE_TTL →
       ∀ d ∈ (ai_worker_pass (verify_face_worker c k now (some r)) st
         inp).dispatches, d.key ≠ k) := by
  refine ⟨?_, ?_, ?_⟩
  · intro hs hi
    have hcond : ¬ (r.status = some "success" ∨ r.status = some "ignored") := by
      rintro (h | h)
      exacts [hs h, hi h]
    simp only [verify_face_worker]
    rw [if_pos h200]
    simp only [hcond, if_false]
    exact cacheGet_cachePut_self c k _
  · intro hcond
    simp only [verify_face_worker]
    rw [if_pos h200]
    simp only [hcond, if_true]
    exact cacheGet_cachePut_self c k _
  · intro st inp hwin
    obtain ⟨e, hget, hexp⟩ := verify_success_entry c k now r h200
    exact no_dispatch_for_cached_key _ k e hget st inp (hexp ▸ hwin)

/-- Witness for C10 at a 200 response with status "unknown" and no name. -/
theorem status_200_unknown_writes_red_entry_witness :
    (200 : Nat) = 200 ∧
    ((some "unknown" ≠ some "success" → some "unknown" ≠ some "ignored" →
        cacheGet (verify_face_worker [] "1_1" 0
          (some ⟨200, none, some "unknown"⟩)) "1_1" =
          some ⟨(none : Option String).getD "Unknown", (0, 0, 255),
            0 + CACHE_TTL⟩) ∧
     ((some "unknown" = some "success" ∨ some "unknown" = some "ignored") →
        cacheGet (verify_face_worker [] "1_1" 0
          (some ⟨200, none, some "unknown"⟩)) "1_1" =
          some ⟨(none : Option String).getD "Unknown", (0, 255, 0),
            0 + CACHE_TTL⟩) ∧
     (∀ (st : WorkerState) (inp : PassInput),
        inp.current_time ≤ 0 + CACHE_TTL →
        ∀ d ∈ (ai_worker_pass (verify_face_worker [] "1_1" 0
          (some ⟨200, none, some "unknown"⟩)) st inp).dispatches,
          d.key ≠ "1_1")) :=
  ⟨rfl, status_200_unknown_writes_red_entry [] "1_1" 0
    ⟨200, none, some "unknown"⟩ rfl⟩

/-- C7 counterexample: after a successful initial read, a device read failure
stops the camera, yet `read()` still returns `ok = true` (with the stale
frame), because `update` only stores `ret` on success — refuting "every
subsequent read() call returns ok=false". -/
theorem camera_read_ok_after_failure_counterexample :
    ((ThreadedCamera.init (some [100])).updateStep none).stopped = true ∧
    ¬ ((((ThreadedCamera.init (some [100])).updateStep none).read).1 = false) := by
  decide

/-- C7 (amended): after a device read failure, `ThreadedCamera` stops itself
and releases the device, but `read()` keeps returning the last successful
`(ok, frame)` pair unchanged; `ok = false` is observed only when no frame was
ever successfully captured (the initial read already failed). -/
theorem camera_stops_on_read_failure (s : ThreadedCamera)
    (hstop : s.stopped = false) (hrel : s.released = false) :
    (s.updateStep none).stopped = true ∧
    (s.updateStep none).released = true ∧
    (s.updateStep none).read = s.read ∧
    (ThreadedCamera.init none).read = (false, none) := by
  refine ⟨?_, ?_, ?_, rfl⟩ <;>
    simp [ThreadedCamera.updateStep, ThreadedCamera.stop, ThreadedCamera.read,
      hstop, hrel]

/-- Witness for C7 (amended) at a camera holding one good frame. -/
theorem camera_stops_on_read_failure_witness :
    (ThreadedCamera.init (some [100])).stopped = false ∧
    ((ThreadedCamera.init (some [100])).updateStep none).stopped = true ∧
    ((ThreadedCamera.init (some [100])).updateStep none).released = true ∧
    ((ThreadedCamera.init (some [100])).updateStep none).read =
      (ThreadedCamera.init (some [100])).read ∧
    (ThreadedCamera.init none).read = (false, none) :=
  ⟨rfl, camera_stops_on_read_failure (ThreadedCamera.init (some [100])) rfl rfl⟩

/-- C8 counterexample: a pass whose detection call raises terminates the
worker loop (the exception has no handler in `ai_worker`): the run ends with
the raised flag set and the following pass — which would have published a
face — never executes, refuting "the inference worker continues looping". -/
theorem inference_exception_kills_worker_counterexample :
    (ai_worker_run [] ⟨[], 0⟩
      [⟨some [100], DetectionResult.raises, 0⟩,
       ⟨some [100], DetectionResult.ok [⟨⟨0, 0, 100, 100⟩, 1, []⟩], 10⟩]).2.2
      = true ∧
    (ai_worker_run [] ⟨[], 0⟩
      [⟨some [100], DetectionResult.raises, 0⟩,
       ⟨some [100], DetectionResult.ok [⟨⟨0, 0, 100, 100⟩, 1, []⟩],
        10⟩]).1.detected_faces = [] := by
  have hb : ¬ get_brightness [100] < MIN_BRIGHTNESS := by
    norm_num [get_brightness, MIN_BRIGHTNESS]
  constructor
  · simp [ai_worker_run, ai_worker_pass, hb]
  · simp [ai_worker_run, ai_worker_pass, hb]

/-- C8 (amended): if the detection call of a pass throws, the previously
published snapshot and the debounce clock remain unchanged and no dispatch is
launched, but the worker thread terminates — the exception propagates out of
`ai_worker`, so no later pass is processed. -/
theorem inference_exception_terminates_worker (c : RecognitionResults)
    (st : WorkerState) (inp : PassInput) (rest : List PassInput)
    (frame : List ℚ)
    (hframe : inp.latest_frame = some frame)
    (hbright : ¬ get_brightness frame < MIN_BRIGHTNESS)
    (hdet : inp.detection = DetectionResult.raises) :
    ai_worker_run c st (inp :: rest) = (st, [[]], true) := by
  have hpass : ai_worker_pass c st inp =
      { state := st, dispatches := [], raised := true } := by
    unfold ai_worker_pass
    rw [hframe, hdet]
    simp [hbright]
  simp [ai_worker_run, hpass]

/-- Witness for C8 (amended): the raising pass ends the run even though a
well-formed pass was still queued behind it. -/
theorem inference_exception_terminates_worker_witness :
    ¬ get_brightness [100] < MIN_BRIGHTNESS ∧
    ai_worker_run [] ⟨[⟨⟨0, 0, 100, 100⟩, 1, []⟩], 3⟩
      [⟨some [100], DetectionResult.raises, 4⟩,
       ⟨some [100], DetectionResult.ok [], 10⟩] =
      (⟨[⟨⟨0, 0, 100, 100⟩, 1, []⟩], 3⟩, [[]], true) :=
  ⟨by norm_num [get_brightness, MIN_BRIGHTNESS],
   inference_exception_terminates_worker [] ⟨[⟨⟨0, 0, 100, 100⟩, 1, []⟩], 3⟩
     _ _ [100] rfl (by norm_num [get_brightness, MIN_BRIGHTNESS]) rfl⟩

end CameraClient
